import Mathlib

/-!
Verification development for the quiplash party-game server.

The definitions below are a shallow embedding of the server's core logic
(the session state machine in the Node.js source): the in-memory game state,
the roster operations, the prompt-assignment engine, the per-message handlers
(prompt / answer / vote / next), and the full-state broadcast payload.

JavaScript objects used as dictionaries (`answers`, `votesCast`,
`audienceVotes`) are modelled as association lists with unique keys
(a JS object cannot hold the same key twice); `Object.keys(o).length`
is therefore the length of the association list.  JS truthiness tests on
string-valued fields are modelled explicitly (`none` / empty string are
falsy).  The random shuffles inside the assignment engine are modelled by
quantifying over the shuffled lists (every permutation is a possible
outcome); in the step machine the permutation is supplied as oracle data.
-/

namespace Quiplash

/-- Association-list lookup, modelling `o[k]` on a JS object. -/
def alGet {κ α : Type} [DecidableEq κ] (k : κ) : List (κ × α) → Option α
  | [] => none
  | (k', v) :: rest => if k' = k then some v else alGet k rest

/-- Association-list update-or-append, modelling `o[k] = v` on a JS object
(an existing key keeps its position; a new key is appended). -/
def alSet {κ α : Type} [DecidableEq κ] (k : κ) (v : α) : List (κ × α) → List (κ × α)
  | [] => [(k, v)]
  | (k', v') :: rest => if k' = k then (k, v) :: rest else (k', v') :: alSet k v rest

/-- Replace the first element satisfying `p` by its image under `f`
(modelling in-place mutation of the object returned by `Array.find`). -/
def updateFirst {α : Type} (p : α → Bool) (f : α → α) : List α → List α
  | [] => []
  | x :: xs => if p x then f x :: xs else x :: updateFirst p f xs

/-- JS truthiness of an optional string: `undefined` and `""` are falsy. -/
def truthyStr : Option String → Bool
  | none => false
  | some t => t ≠ ""

/-- JS `String.prototype.trim()`: strips leading and trailing whitespace
(modelled on the character list so that it evaluates by reduction). -/
def jsTrim (s : String) : String :=
  ⟨((s.data.dropWhile Char.isWhitespace).reverse.dropWhile
      Char.isWhitespace).reverse⟩

/-- A round prompt: `id` (index at aggregation time), text and author. -/
structure Prompt where
  id : Nat
  text : String
  author : String
deriving DecidableEq, Repr

/-- Per-round mutable state of a player (`player.state` in the source). -/
structure PlayerState where
  status : String
  prompt : Option String
  assignedPrompts : List Prompt
  answers : List (Nat × String)
  votesCast : List (Nat × String)
  roundVotes : Nat
  roundScore : Nat
deriving DecidableEq, Repr

/-- A player: identity fields plus per-round state. -/
structure Player where
  id : String
  username : String
  score : Nat
  isAdmin : Bool
  socketId : String
  state : PlayerState
deriving DecidableEq, Repr

/-- Mutable state of an audience member.  In the source this object starts as
`{ status: 'AUDIENCE' }` and fields spring into existence on assignment; the
`prompt`/`answers` fields below start empty, which is observationally the
same for every truthiness test the handlers perform. -/
structure AudState where
  status : String
  prompt : Option String
  answers : List (Nat × String)
deriving DecidableEq, Repr

/-- An audience member (spectator). -/
structure AudienceMember where
  id : String
  username : String
  socketId : String
  state : AudState
deriving DecidableEq, Repr

/-- The singleton in-memory session state (`gameState` in the source).
`audienceVotes` maps promptId to a map from target username to count. -/
structure GameState where
  stage : String
  round : Nat
  players : List Player
  audience : List AudienceMember
  activePrompts : List Prompt
  audienceVotes : List (Nat × List (String × Nat))
deriving DecidableEq, Repr

/-- The state at process start. -/
def initState : GameState :=
  { stage := "JOINING", round := 0, players := [], audience := [],
    activePrompts := [], audienceVotes := [] }

/-- A user found by socket id is either a player or an audience member. -/
inductive User where
  | player (p : Player)
  | aud (a : AudienceMember)
deriving DecidableEq, Repr

/-- `findUserBySocketId`: players are searched before the audience. -/
def findUserBySocketId (s : GameState) (sid : String) : Option User :=
  match s.players.find? (fun p => p.socketId = sid) with
  | some p => some (User.player p)
  | none => (s.audience.find? (fun a => a.socketId = sid)).map User.aud

/-- `user.isAdmin`; on an audience object the field is absent, hence falsy. -/
def userIsAdmin : User → Bool
  | User.player p => p.isAdmin
  | User.aud _ => false

/-- `user.username`. -/
def userUsername : User → String
  | User.player p => p.username
  | User.aud a => a.username

/-- `user.state.status`. -/
def userStatus : User → String
  | User.player p => p.state.status
  | User.aud a => a.state.status

/-- `addPlayerOrAudience`: joins as a player while the lobby is open
(fewer than 4 players and stage JOINING), otherwise as audience.  The first
player to join gets `isAdmin`. -/
def addPlayerOrAudience (s : GameState) (sid username : String) : GameState :=
  if s.players.length < 4 ∧ s.stage = "JOINING" then
    let player : Player :=
      { id := sid, username := username, score := 0,
        isAdmin := s.players.length = 0, socketId := sid,
        state := { status := "JOINING", assignedPrompts := [], answers := [],
                   votesCast := [], roundVotes := 0, roundScore := 0,
                   prompt := none } }
    { s with players := s.players ++ [player] }
  else
    let audienceMember : AudienceMember :=
      { id := sid, username := username, socketId := sid,
        state := { status := "AUDIENCE", prompt := none, answers := [] } }
    { s with audience := s.audience ++ [audienceMember] }

/-- The `disconnect` handler: the user is removed from whichever collection
holds it, with no admin reassignment. -/
def removeBySocket (s : GameState) (sid : String) : GameState :=
  { s with players := s.players.filter (fun p => p.socketId ≠ sid),
           audience := s.audience.filter (fun a => a.socketId ≠ sid) }

/-- `allPromptsSubmitted`: every player (at least one) has status
PROMPT_SUBMITTED. -/
def allPromptsSubmitted (s : GameState) : Bool :=
  if s.players.isEmpty then false
  else s.players.all (fun p => p.state.status = "PROMPT_SUBMITTED")

/-- `allAnswersSubmitted`: every player (at least one) has a nonempty
assignment and an answer recorded for every assigned prompt id. -/
def allAnswersSubmitted (s : GameState) : Bool :=
  if s.players.isEmpty then false
  else s.players.all (fun p =>
    !p.state.assignedPrompts.isEmpty &&
    p.state.assignedPrompts.all (fun pr => (alGet pr.id p.state.answers).isSome))

/-- `allVotesSubmitted`: only players gate the transition out of VOTING; the
check is that each player's `votesCast` object has exactly as many keys as
there are active prompts. -/
def allVotesSubmitted (s : GameState) : Bool :=
  if s.players.isEmpty || s.activePrompts.isEmpty then false
  else s.players.all (fun p =>
    p.state.votesCast.length = s.activePrompts.length)

/-- Validity test inside `getNextValidPrompt`: the prompt was authored by
neither member of the pair. -/
def promptValidFor (a b : String) (pr : Prompt) : Bool :=
  pr.author ≠ a && pr.author ≠ b

/-- Inner loop of `getNextValidPrompt` past the head of the pool: the first
valid prompt is removed and the element `x` (the former pool head) is swapped
into its place, mirroring the source's swap-to-front bookkeeping. -/
def findReplaceValid (a b : String) (x : Prompt) :
    List Prompt → Option Prompt × List Prompt
  | [] => (none, [])
  | pr :: rest =>
    if promptValidFor a b pr then (some pr, x :: rest)
    else
      match findReplaceValid a b x rest with
      | (none, rest') => (none, pr :: rest')
      | (some c, rest') => (some c, pr :: rest')

/-- `getNextValidPrompt`: scans the remaining pool for the first prompt
authored by neither pair member; when found it is consumed (and the pool is
reordered by the source's swap). -/
def getNextValidPrompt (a b : String) :
    List Prompt → Option Prompt × List Prompt
  | [] => (none, [])
  | pr :: rest =>
    if promptValidFor a b pr then (some pr, rest)
    else findReplaceValid a b pr rest

/-- Even player count: disjoint pairs (0,1), (2,3), … of the shuffled list. -/
def evenPairs : List String → List (String × String)
  | a :: b :: rest => (a, b) :: evenPairs rest
  | _ => []

/-- Odd player count: circular pairs (i, (i+1) mod n) for every i. -/
def oddPairs (us : List String) : List (String × String) :=
  (List.range us.length).map
    (fun i => (us.getD i "", us.getD ((i + 1) % us.length) ""))

/-- Processes the pair list in order, threading the shared prompt pool; a
pair with no valid prompt simply receives none.  The result is the list of
assignment events (pair, chosen prompt) in processing order. -/
def processPairs :
    List (String × String) → List Prompt → List ((String × String) × Prompt)
  | [], _ => []
  | (a, b) :: rest, pool =>
    match getNextValidPrompt a b pool with
    | (some pr, pool') => ((a, b), pr) :: processPairs rest pool'
    | (none, pool') => processPairs rest pool'

/-- Applies a permutation oracle: `sigma` lists source indices; if it is not
a valid permutation of the positions the list is returned unchanged (the
identity is itself a legitimate shuffle outcome). -/
def applyPerm {α : Type} (sigma : List Nat) (l : List α) : List α :=
  let l' := sigma.filterMap (fun i => l.get? i)
  if l'.length = l.length ∧ sigma.Nodup then l' else l

/-- `assignPromptsToPlayers`: shuffles players and prompts (oracles `sigmaP`,
`sigmaPr`), builds disjoint pairs for an even count or circular pairs for an
odd count, and gives each pair the first prompt authored by neither member,
consuming prompts from the shared pool.  Returns the assignment events. -/
def assignPromptsToPlayers (players : List Player) (prompts : List Prompt)
    (sigmaP sigmaPr : List Nat) : List ((String × String) × Prompt) :=
  let shuffledPlayers := applyPerm sigmaP players
  let shuffledPrompts := applyPerm sigmaPr prompts
  let names := shuffledPlayers.map (fun p => p.username)
  let pairs :=
    if shuffledPlayers.length % 2 = 0 then evenPairs names else oddPairs names
  processPairs pairs shuffledPrompts

/-- The `assignments` map entry for username `u`: the prompts pushed for
every pair containing `u`, in push order. -/
def assignedTo (events : List ((String × String) × Prompt)) (u : String) :
    List Prompt :=
  (events.filter (fun e => e.1.1 = u || e.1.2 = u)).map (fun e => e.2)

/-- `startPromptStage`: enters PROMPTS, increments `round`, resets every
player's per-round state, parks the audience, clears the active prompts and
the audience vote tally. -/
def startPromptStage (s : GameState) : GameState :=
  { s with
    stage := "PROMPTS"
    round := s.round + 1
    players := s.players.map (fun p =>
      { p with state := { p.state with
          status := "WAITING_FOR_PROMPTS", prompt := none,
          assignedPrompts := [], answers := [], votesCast := [],
          roundVotes := 0, roundScore := 0 } })
    audience := s.audience.map (fun a =>
      { a with state := { a.state with status := "AUDIENCE_WAITING" } })
    activePrompts := []
    audienceVotes := [] }

/-- `startAnswerStage`: aggregates one prompt per player that authored one
(ids are list indices), runs the assignment engine and enters ANSWERS.  When
no prompts were collected the function returns without changing anything. -/
def startAnswerStage (s : GameState) (sigmaP sigmaPr : List Nat) : GameState :=
  let prompts :=
    ((s.players.filter (fun p => truthyStr p.state.prompt)).enum).map
      (fun ip =>
        { id := ip.1, text := ip.2.state.prompt.getD "",
          author := ip.2.username : Prompt })
  if prompts.isEmpty then s
  else
    let events := assignPromptsToPlayers s.players prompts sigmaP sigmaPr
    { s with
      activePrompts := prompts
      players := s.players.map (fun p =>
        { p with state := { p.state with
            assignedPrompts := assignedTo events p.username
            status := "WAITING_FOR_ANSWERS"
            answers := [] } })
      stage := "ANSWERS" }

/-- `startVotingStage`: enters VOTING; every player's status becomes
WAITING_FOR_VOTES (the source's `votesCast`/`roundVotes` re-defaults are
no-ops on already-initialised fields). -/
def startVotingStage (s : GameState) : GameState :=
  { s with
    stage := "VOTING"
    players := s.players.map (fun p =>
      { p with state := { p.state with status := "WAITING_FOR_VOTES" } }) }

/-- `PLAYER_VOTE_POINTS` in `endVotingAndScoreRound`. -/
def PLAYER_VOTE_POINTS : Nat := 100

/-- `AUDIENCE_VOTE_POINTS` in `endVotingAndScoreRound`. -/
def AUDIENCE_VOTE_POINTS : Nat := 50

/-- `targetPlayer.state.roundScore += points; targetPlayer.score += points`:
the mutation applied to a scoring target. -/
def addPts (points : Nat) (p : Player) : Player :=
  { p with
    score := p.score + points,
    state := { p.state with roundScore := p.state.roundScore + points } }

/-- Adds `points` to the round score and cumulative score of the first
player named `u`, mirroring the mutation of the object found by
`players.find(p => p.username === targetUsername)`; when no player matches
the list is unchanged. -/
def bumpPlayerScore (u : String) (points : Nat) (l : List Player) :
    List Player :=
  updateFirst (fun p => p.username = u) (addPts points) l

/-- The audience-vote phase of scoring: for every tally entry
`audienceVotes[promptId][targetUsername] = voteCount` the target player (if
present) gains `voteCount * AUDIENCE_VOTE_POINTS`. -/
def applyAudienceVotes (av : List (Nat × List (String × Nat)))
    (l : List Player) : List Player :=
  av.foldl
    (fun acc e =>
      e.2.foldl
        (fun acc2 t => bumpPlayerScore t.1 (t.2 * AUDIENCE_VOTE_POINTS) acc2)
        acc)
    l

/-- `endVotingAndScoreRound`: resets round scores, awards
`round * roundVotes * PLAYER_VOTE_POINTS` to each player, then the audience
vote points, and moves to GAME_OVER after round 3 or SCORING otherwise. -/
def endVotingAndScoreRound (s : GameState) : GameState :=
  let reset := s.players.map (fun p =>
    { p with state := { p.state with roundScore := 0 } })
  let scored := reset.map (fun p =>
    let points := s.round * p.state.roundVotes * PLAYER_VOTE_POINTS
    { p with
      score := p.score + points,
      state := { p.state with roundScore := p.state.roundScore + points } })
  { s with
    players := applyAudienceVotes s.audienceVotes scored
    stage := if s.round ≥ 3 then "GAME_OVER" else "SCORING" }

/-- A handler's outcome: the session state afterwards and the `result`
flag of the reply sent to the requesting connection. -/
structure HR where
  state : GameState
  result : Bool
deriving DecidableEq, Repr

/-- `handleStartGame` (the `next` message while stage is JOINING): admin
only; enters the prompt stage.  The non-JOINING branch is unreachable from
the socket wiring (which routes `next` here only when stage is JOINING)
and emits nothing in the source. -/
def handleStartGame (s : GameState) (sid : String) : HR :=
  match findUserBySocketId s sid with
  | none => ⟨s, false⟩
  | some u =>
    if !userIsAdmin u then ⟨s, false⟩
    else if s.stage = "JOINING" then ⟨startPromptStage s, true⟩
    else ⟨s, false⟩

/-- `handleAdvanceGame` (the `next` message outside JOINING): admin only;
each stage transition is gated by its completion predicate, and a failed
gate leaves the state untouched. -/
def handleAdvanceGame (s : GameState) (sid : String)
    (sigmaP sigmaPr : List Nat) : HR :=
  match findUserBySocketId s sid with
  | none => ⟨s, false⟩
  | some u =>
    if !userIsAdmin u then ⟨s, false⟩
    else if s.stage = "PROMPTS" then
      if !allPromptsSubmitted s then ⟨s, false⟩
      else ⟨startAnswerStage s sigmaP sigmaPr, true⟩
    else if s.stage = "ANSWERS" then
      if !allAnswersSubmitted s then ⟨s, false⟩
      else ⟨startVotingStage s, true⟩
    else if s.stage = "VOTING" then
      if !allVotesSubmitted s then ⟨s, false⟩
      else ⟨endVotingAndScoreRound s, true⟩
    else if s.stage = "SCORING" then
      if s.round ≥ 3 then ⟨{ s with stage := "GAME_OVER" }, true⟩
      else ⟨startPromptStage s, true⟩
    else ⟨s, false⟩

/-- The socket wiring for `next`: start while JOINING, advance otherwise. -/
def nextMessage (s : GameState) (sid : String)
    (sigmaP sigmaPr : List Nat) : HR :=
  if s.stage = "JOINING" then handleStartGame s sid
  else handleAdvanceGame s sid sigmaP sigmaPr

/-- `handlePrompt`: accepted only during PROMPTS from a user that has not
yet submitted, with a 20-120 character bound after trimming; `backendOk`
models the external content-storage call (failure records nothing). -/
def handlePrompt (s : GameState) (sid : String) (dataText : Option String)
    (backendOk : Bool) : HR :=
  match findUserBySocketId s sid with
  | none => ⟨s, false⟩
  | some u =>
    if s.stage ≠ "PROMPTS" ∨ userStatus u = "PROMPT_SUBMITTED" then ⟨s, false⟩
    else
      let text := jsTrim (dataText.getD "")
      if text = "" ∨ text.length < 20 ∨ text.length > 120 then ⟨s, false⟩
      else if !backendOk then ⟨s, false⟩
      else
        match u with
        | User.player _ =>
          let players' := updateFirst (fun q => q.socketId = sid)
            (fun q => { q with state := { q.state with
                prompt := some text, status := "PROMPT_SUBMITTED" } })
            s.players
          ⟨{ s with players := players' }, true⟩
        | User.aud _ =>
          let audience' := updateFirst (fun q => q.socketId = sid)
            (fun q => { q with state := { q.state with
                prompt := some text, status := "PROMPT_SUBMITTED" } })
            s.audience
          ⟨{ s with audience := audience' }, true⟩

/-- Records `user.state.answers[promptId] = text` and sets the status to
ANSWER_SUBMITTED when `allAnswered` holds (otherwise it is untouched). -/
def answerUpd (promptId : Nat) (text : String) (allAnswered : Bool)
    (q : Player) : Player :=
  { q with state := { q.state with
      answers := alSet promptId text q.state.answers,
      status := if allAnswered then "ANSWER_SUBMITTED" else q.state.status } }

/-- The "every assigned prompt has an answer" test performed by
`handleAnswer` after recording an answer for `promptId`: the assignment is
nonempty and each assigned prompt id has an entry in the updated answers. -/
def allAnsweredAfter (p : Player) (promptId : Nat) (text : String) : Bool :=
  !p.state.assignedPrompts.isEmpty &&
    p.state.assignedPrompts.all
      (fun pr => (alGet pr.id (alSet promptId text p.state.answers)).isSome)

/-- The session state after a player's accepted answer submission. -/
def answeredState (s : GameState) (sid : String) (promptId : Nat)
    (text : String) (allAnswered : Bool) : GameState :=
  let players' := updateFirst (fun q => q.socketId = sid)
    (answerUpd promptId text allAnswered) s.players
  { s with players := players' }

/-- `user.state.answers[promptId] = text` on an audience member's state
(reachable because the status guard only excludes the literal status
AUDIENCE, not AUDIENCE_WAITING). -/
def audAnswerUpd (promptId : Nat) (text : String)
    (q : AudienceMember) : AudienceMember :=
  { q with state := { q.state with
      answers := alSet promptId text q.state.answers } }

/-- `handleAnswer`: guarded by user presence, not having status AUDIENCE,
stage ANSWERS, truthy text and a defined promptId; the answer is then
recorded (overwriting any previous answer for that promptId, with no check
that the promptId is assigned to the submitter), and the status flips to
ANSWER_SUBMITTED once every assigned prompt has an answer. -/
def handleAnswer (s : GameState) (sid : String) (dataPromptId : Option Nat)
    (dataText : String) : HR :=
  match findUserBySocketId s sid with
  | none => ⟨s, false⟩
  | some u =>
    if userStatus u = "AUDIENCE" ∨ s.stage ≠ "ANSWERS" ∨ dataText = ""
        ∨ dataPromptId.isNone then ⟨s, false⟩
    else
      match dataPromptId, u with
      | some promptId, User.player p =>
        ⟨answeredState s sid promptId (jsTrim dataText)
          (allAnsweredAfter p promptId (jsTrim dataText)), true⟩
      | some promptId, User.aud _ =>
        let audience' := updateFirst (fun q => q.socketId = sid)
          (audAnswerUpd promptId (jsTrim dataText)) s.audience
        ⟨{ s with audience := audience' }, true⟩
      | none, _ => ⟨s, false⟩

/-- `votingPlayer.state.votesCast[promptId] = targetPlayer.username`. -/
def castVoteUpd (promptId : Nat) (target : String) (p : Player) : Player :=
  { p with state := { p.state with
      votesCast := alSet promptId target p.state.votesCast } }

/-- `targetPlayer.state.roundVotes += 1`. -/
def recvVoteUpd (p : Player) : Player :=
  { p with state := { p.state with roundVotes := p.state.roundVotes + 1 } }

/-- The state after a successful player vote: the voter's ledger entry is
written, then the target's received-vote counter is incremented (both via
the first username match, as the source's `find` does). -/
def votedState (s : GameState) (promptId : Nat) (voter target : String) :
    GameState :=
  let players1 := updateFirst (fun p => p.username = voter)
    (castVoteUpd promptId target) s.players
  let players2 := updateFirst (fun p => p.username = target) recvVoteUpd players1
  { s with players := players2 }

/-- Increments `audienceVotes[promptId][targetUsername]`, initialising the
nested objects on demand. -/
def avBump (av : List (Nat × List (String × Nat))) (promptId : Nat)
    (target : String) : List (Nat × List (String × Nat)) :=
  let inner := (alGet promptId av).getD []
  alSet promptId (alSet target ((alGet target inner).getD 0 + 1) inner) av

/-- The audience vote tally for a (promptId, target) pair, 0 if absent. -/
def audienceTally (av : List (Nat × List (String × Nat))) (promptId : Nat)
    (target : String) : Nat :=
  (alGet target ((alGet promptId av).getD [])).getD 0

/-- `handleVote`: during VOTING only; the target must be an existing player
other than the voter.  A voter whose username matches a player follows the
player rule (one vote per promptId, detected by a truthiness test on
`votesCast[promptId]`, and the target's `roundVotes` is incremented);
otherwise the audience rule applies (uncapped, tallied in
`audienceVotes`).  No check relates the promptId to `activePrompts`. -/
def handleVote (s : GameState) (sid : String) (dataPromptId : Option Nat)
    (target : Option String) : HR :=
  match findUserBySocketId s sid with
  | none => ⟨s, false⟩
  | some u =>
    if s.stage ≠ "VOTING" then ⟨s, false⟩
    else
      match dataPromptId with
      | none => ⟨s, false⟩
      | some promptId =>
        match target with
        | none => ⟨s, false⟩
        | some t =>
          match s.players.find? (fun p => p.username = t) with
          | none => ⟨s, false⟩
          | some targetPlayer =>
            if targetPlayer.username = userUsername u then ⟨s, false⟩
            else
              match s.players.find? (fun p => p.username = userUsername u) with
              | some votingPlayer =>
                if truthyStr (alGet promptId votingPlayer.state.votesCast)
                then ⟨s, false⟩
                else
                  let players1 := updateFirst
                    (fun p => p.username = userUsername u)
                    (castVoteUpd promptId targetPlayer.username)
                    s.players
                  let players2 := updateFirst
                    (fun p => p.username = targetPlayer.username)
                    recvVoteUpd
                    players1
                  ⟨{ s with players := players2 }, true⟩
              | none =>
                ⟨{ s with audienceVotes := avBump s.audienceVotes promptId t },
                  true⟩

/-- One inbound state-mutating event.  `login` is a login the identity
collaborator accepted (a failed login mutates nothing); `promptMsg` carries
the content-storage collaborator's verdict; `nextMsg` carries the shuffle
oracles consumed if the assignment engine runs. -/
inductive Op where
  | login (sid username : String)
  | disconnect (sid : String)
  | promptMsg (sid : String) (text : Option String) (backendOk : Bool)
  | answerMsg (sid : String) (promptId : Option Nat) (text : String)
  | voteMsg (sid : String) (promptId : Option Nat) (target : Option String)
  | nextMsg (sid : String) (sigmaP sigmaPr : List Nat)
deriving DecidableEq, Repr

/-- The session state after processing one event. -/
def step (s : GameState) : Op → GameState
  | Op.login sid username => addPlayerOrAudience s sid username
  | Op.disconnect sid => removeBySocket s sid
  | Op.promptMsg sid text ok => (handlePrompt s sid text ok).state
  | Op.answerMsg sid promptId text => (handleAnswer s sid promptId text).state
  | Op.voteMsg sid promptId target => (handleVote s sid promptId target).state
  | Op.nextMsg sid sigmaP sigmaPr => (nextMessage s sid sigmaP sigmaPr).state

/-- The session states reachable from process start. -/
inductive Reachable : GameState → Prop
  | init : Reachable initState
  | step {s : GameState} (h : Reachable s) (op : Op) : Reachable (step s op)

/-- Number of players whose `isAdmin` flag is set. -/
def adminCount (s : GameState) : Nat :=
  (s.players.filter (fun p => p.isAdmin)).length

/-- How many entries of a player's `votesCast` are for a given promptId. -/
def votesCastFor (p : Player) (promptId : Nat) : Nat :=
  (p.state.votesCast.filter (fun e => e.1 = promptId)).length

/-- A player entry of the `gameState` broadcast (built in `updateAll`):
identity and the per-round state the server chooses to publish, plus the
rank computed on each broadcast (`none` until assigned). -/
structure PublicPlayer where
  id : String
  username : String
  score : Nat
  isAdmin : Bool
  status : String
  prompt : Option String
  assignedPrompts : List Prompt
  answers : List (Nat × String)
  roundScore : Nat
  votesCast : List (Nat × String)
  rank : Option Nat
deriving DecidableEq, Repr

/-- An audience entry of the broadcast. -/
structure PublicAudienceMember where
  id : String
  username : String
  status : String
deriving DecidableEq, Repr

/-- The full `gameState` broadcast payload. -/
structure BroadcastPayload where
  stage : String
  round : Nat
  players : List PublicPlayer
  audience : List PublicAudienceMember
  activePrompts : List Prompt
deriving DecidableEq, Repr

/-- Stable insertion (descending score) used to model the comparator
`(a, b) => b.score - a.score` of the broadcast's rank sort. -/
def insertDesc (x : PublicPlayer) : List PublicPlayer → List PublicPlayer
  | [] => [x]
  | y :: ys => if y.score ≥ x.score then y :: insertDesc x ys else x :: y :: ys

/-- Stable sort by descending score. -/
def sortByScoreDesc (l : List PublicPlayer) : List PublicPlayer :=
  l.foldl (fun acc x => insertDesc x acc) []

/-- `sorted.forEach((p, idx) => { find the entry with p.id; set rank })`. -/
def assignRanks (base : List PublicPlayer) : List PublicPlayer :=
  (sortByScoreDesc base).enum.foldl
    (fun acc ip =>
      updateFirst (fun q => q.id = ip.2.id)
        (fun q => { q with rank := some (ip.1 + 1) }) acc)
    base

/-- The payload `updateAll` broadcasts to every connection: public player
and audience views, the active prompts and the stage/round counters.  The
`audienceVotes` tally is not part of the payload. -/
def broadcastPayload (s : GameState) : BroadcastPayload :=
  let base := s.players.map (fun p =>
    { id := p.id, username := p.username, score := p.score,
      isAdmin := p.isAdmin, status := p.state.status,
      prompt := p.state.prompt, assignedPrompts := p.state.assignedPrompts,
      answers := p.state.answers, roundScore := p.state.roundScore,
      votesCast := p.state.votesCast, rank := none : PublicPlayer })
  { stage := s.stage
    round := s.round
    players := assignRanks base
    audience := s.audience.map (fun a =>
      { id := a.id, username := a.username, status := a.state.status })
    activePrompts := s.activePrompts.map (fun p =>
      { id := p.id, text := p.text, author := p.author }) }

/-- The `isAdmin` flags of a player list, in order. -/
def adminFlags (l : List Player) : List Bool :=
  l.map (fun p => p.isAdmin)

/-- The (id, socketId) pairs of a player list, in order. -/
def idPairs (l : List Player) : List (String × String) :=
  l.map (fun p => (p.id, p.socketId))

/-- The (id, socketId) pairs of an audience list, in order. -/
def audIdPairs (l : List AudienceMember) : List (String × String) :=
  l.map (fun a => (a.id, a.socketId))

/-- Total audience-vote count for target `u` within one prompt's tally. -/
def sumFor (ts : List (String × Nat)) (u : String) : Nat :=
  ((ts.filter (fun e => e.1 = u)).map (fun e => e.2)).sum

/-- Total audience-vote count for target `u` over the whole tally. -/
def audSum (av : List (Nat × List (String × Nat))) (u : String) : Nat :=
  (av.map (fun e => sumFor e.2 u)).sum

/-- Every participant's `id` field equals their connection's socket id
(both are set to `socket.id` at join time and never modified). -/
def IdSync (s : GameState) : Prop :=
  (∀ p ∈ s.players, p.id = p.socketId) ∧ (∀ a ∈ s.audience, a.id = a.socketId)

/-- A player fixture in VOTING with empty ledgers. -/
def mkVoter (sid uname : String) (adm : Bool) : Player :=
  { id := sid, username := uname, score := 0, isAdmin := adm, socketId := sid,
    state := { status := "WAITING_FOR_VOTES", prompt := none,
               assignedPrompts := [], answers := [], votesCast := [],
               roundVotes := 0, roundScore := 0 } }

/-- A 2-player VOTING session with one active prompt, no votes yet. -/
def fixVote : GameState :=
  { stage := "VOTING", round := 1,
    players := [mkVoter "sa" "a" true, mkVoter "sb" "b" false],
    audience := [], activePrompts := [⟨0, "prompt zero text", "a"⟩],
    audienceVotes := [] }

/-- `fixVote` after player a votes on the non-active promptId 99. -/
def fixVote1 : GameState :=
  (handleVote fixVote "sa" (some 99) (some "b")).state

/-- `fixVote1` after player b votes on the active promptId 0. -/
def fixVote2 : GameState :=
  (handleVote fixVote1 "sb" (some 0) (some "a")).state

/-- A VOTING session with an audience member z watching two players. -/
def fixAud : GameState :=
  { stage := "VOTING", round := 1,
    players := [mkVoter "sa" "a" true, mkVoter "sb" "b" false],
    audience := [{ id := "sz", username := "z", socketId := "sz",
                   state := { status := "AUDIENCE", prompt := none,
                              answers := [] } }],
    activePrompts := [⟨0, "prompt zero text", "a"⟩], audienceVotes := [] }

/-- `fixAud` after one audience vote for a on promptId 0. -/
def fixAud1 : GameState := (handleVote fixAud "sz" (some 0) (some "a")).state

/-- `fixAud1` after a second identical audience vote. -/
def fixAud2 : GameState := (handleVote fixAud1 "sz" (some 0) (some "a")).state

/-- A VOTING session whose second player has the empty username. -/
def fixEmptyName : GameState :=
  { stage := "VOTING", round := 1,
    players := [mkVoter "sa" "a" true, mkVoter "sb" "" false],
    audience := [], activePrompts := [⟨0, "prompt zero text", "a"⟩],
    audienceVotes := [] }

/-- `fixEmptyName` after player a votes on promptId 0 for the
empty-username player (the stored `votesCast[0]` value is `""`). -/
def fixEmptyName1 : GameState :=
  (handleVote fixEmptyName "sa" (some 0) (some "")).state

/-- Player a with a recorded vote (nonempty target) for promptId 0. -/
def fixDupPlayer : Player :=
  { mkVoter "sa" "a" true with
    state := { (mkVoter "sa" "a" true).state with votesCast := [(0, "b")] } }

/-- A VOTING session where player a already has a recorded vote
(nonempty target) for promptId 0. -/
def fixDup : GameState :=
  { stage := "VOTING", round := 1,
    players := [fixDupPlayer, mkVoter "sb" "b" false],
    audience := [], activePrompts := [⟨0, "prompt zero text", "a"⟩],
    audienceVotes := [] }

/-- An ANSWERS session: player a is assigned exactly the prompt with id 0
(authored by b) and has answered nothing. -/
def fixAnswer : GameState :=
  { stage := "ANSWERS", round := 1,
    players :=
      [{ id := "sa", username := "a", score := 0, isAdmin := true,
         socketId := "sa",
         state := { status := "WAITING_FOR_ANSWERS", prompt := none,
                    assignedPrompts := [⟨0, "prompt zero text", "b"⟩],
                    answers := [], votesCast := [], roundVotes := 0,
                    roundScore := 0 } }],
    audience := [], activePrompts := [⟨0, "prompt zero text", "b"⟩],
    audienceVotes := [] }

/-- A VOTING session at round 2: player a holds 3 received votes and a
prior cumulative score of 50; no audience votes were tallied. -/
def fixScore : GameState :=
  { stage := "VOTING", round := 2,
    players :=
      [{ id := "sa", username := "a", score := 50, isAdmin := true,
         socketId := "sa",
         state := { status := "WAITING_FOR_VOTES", prompt := none,
                    assignedPrompts := [], answers := [], votesCast := [],
                    roundVotes := 3, roundScore := 0 } }],
    audience := [], activePrompts := [⟨0, "prompt zero text", "a"⟩],
    audienceVotes := [] }

/-- The player entry of `fixScore`. -/
def fixScorePlayer : Player :=
  { id := "sa", username := "a", score := 50, isAdmin := true,
    socketId := "sa",
    state := { status := "WAITING_FOR_VOTES", prompt := none,
               assignedPrompts := [], answers := [], votesCast := [],
               roundVotes := 3, roundScore := 0 } }

/-- Three players for the assignment-engine example. -/
def fixAssignPlayers : List Player :=
  [mkVoter "sa" "a" true, mkVoter "sb" "b" false, mkVoter "sc" "c" false]

/-- One authored prompt per player for the assignment-engine example. -/
def fixAssignPrompts : List Prompt :=
  [⟨0, "prompt by a", "a"⟩, ⟨1, "prompt by b", "b"⟩, ⟨2, "prompt by c", "c"⟩]

/-- Reachable state: two players join during JOINING, then the admin (the
first joiner) disconnects. -/
def fixAdminGone : GameState :=
  step (step (step initState (Op.login "s1" "alice")) (Op.login "s2" "bob"))
    (Op.disconnect "s1")

/-- Reachable state: a single player (the admin) has joined. -/
def fixOnePlayer : GameState := step initState (Op.login "s1" "alice")

theorem alGet_alSet_self {κ α : Type} [DecidableEq κ] (k : κ) (v : α) :
    ∀ l : List (κ × α), alGet k (alSet k v l) = some v := by
  intro l
  induction l with
  | nil => simp [alGet, alSet]
  | cons e rest ih =>
    by_cases h : e.1 = k
    · simp [alGet, alSet, h]
    · simp [alGet, alSet, h, ih]

theorem length_alSet_of_none {κ α : Type} [DecidableEq κ] (k : κ) (v : α) :
    ∀ l : List (κ × α), alGet k l = none → (alSet k v l).length = l.length + 1 := by
  intro l
  induction l with
  | nil => intro _; simp [alSet]
  | cons e rest ih =>
    intro h
    by_cases he : e.1 = k
    · simp [alGet, he] at h
    · simp [alGet, he] at h
      simp [alSet, he, ih h]

theorem find?_updateFirst_map {α : Type} (p : α → Bool) (f : α → α)
    (hf : ∀ x, p (f x) = p x) :
    ∀ l : List α, (updateFirst p f l).find? p = (l.find? p).map f := by
  intro l
  induction l with
  | nil => simp [updateFirst]
  | cons x xs ih =>
    by_cases hx : p x
    · simp [updateFirst, hx, List.find?_cons, hf]
    · simp [updateFirst, hx, List.find?_cons, ih]

theorem find?_updateFirst_other {α : Type} (p q : α → Bool) (f : α → α)
    (hpq : ∀ x, p x = true → q x = false ∧ q (f x) = false) :
    ∀ l : List α, (updateFirst p f l).find? q = l.find? q := by
  intro l
  induction l with
  | nil => simp [updateFirst]
  | cons x xs ih =>
    by_cases hx : p x
    · obtain ⟨h1, h2⟩ := hpq x hx
      simp [updateFirst, hx, List.find?_cons, h1, h2]
    · by_cases hq : q x
      · simp [updateFirst, hx, List.find?_cons, hq]
      · simp [updateFirst, hx, List.find?_cons, hq, ih]

theorem find?_map_pres {α : Type} (q : α → Bool) (f : α → α)
    (hf : ∀ x, q (f x) = q x) :
    ∀ l : List α, (l.map f).find? q = (l.find? q).map f := by
  intro l
  induction l with
  | nil => simp
  | cons x xs ih =>
    by_cases hx : q x
    · simp [List.find?_cons, hx, hf]
    · simp [List.find?_cons, hx, hf, ih]

theorem map_updateFirst {α β : Type} (g : α → β) (p : α → Bool) (f : α → α)
    (hf : ∀ x, g (f x) = g x) :
    ∀ l : List α, (updateFirst p f l).map g = l.map g := by
  intro l
  induction l with
  | nil => rfl
  | cons x xs ih =>
    by_cases hx : p x
    · simp [updateFirst, hx, hf]
    · simp [updateFirst, hx, ih]

theorem findReplaceValid_some {a b : String} {pr : Prompt} :
    ∀ {x : Prompt} {l l' : List Prompt},
    findReplaceValid a b x l = (some pr, l') → promptValidFor a b pr = true := by
  intro x l
  induction l generalizing x with
  | nil => intro l' h; simp [findReplaceValid] at h
  | cons y ys ih =>
    intro l' h
    by_cases hy : promptValidFor a b y
    · simp only [findReplaceValid, hy, if_pos] at h
      obtain ⟨h1, _⟩ := Prod.mk.injEq .. ▸ h
      cases h
      exact hy
    · simp only [findReplaceValid, hy] at h
      rcases hr : findReplaceValid a b x ys with ⟨o, rest'⟩
      cases o with
      | none => rw [hr] at h; simp at h
      | some c =>
        rw [hr] at h
        simp at h
        obtain ⟨hc, _⟩ := h
        subst hc
        exact ih hr

theorem getNextValidPrompt_some {a b : String} {pr : Prompt}
    {l l' : List Prompt} (h : getNextValidPrompt a b l = (some pr, l')) :
    promptValidFor a b pr = true := by
  cases l with
  | nil => simp [getNextValidPrompt] at h
  | cons y ys =>
    by_cases hy : promptValidFor a b y
    · simp only [getNextValidPrompt, hy, if_pos] at h
      cases h
      exact hy
    · simp only [getNextValidPrompt, hy] at h
      exact findReplaceValid_some h

theorem processPairs_mem {ab : String × String} {pr : Prompt} :
    ∀ {pairs : List (String × String)} {pool : List Prompt},
    (ab, pr) ∈ processPairs pairs pool → promptValidFor ab.1 ab.2 pr = true := by
  intro pairs
  induction pairs with
  | nil => intro pool h; simp [processPairs] at h
  | cons q rest ih =>
    intro pool h
    rcases hg : getNextValidPrompt q.1 q.2 pool with ⟨o, pool'⟩
    cases o with
    | none =>
      have : processPairs (q :: rest) pool = processPairs rest pool' := by
        simp only [processPairs]
        rw [hg]
      rw [this] at h
      exact ih h
    | some c =>
      have : processPairs (q :: rest) pool
          = ((q.1, q.2), c) :: processPairs rest pool' := by
        simp only [processPairs]
        rw [hg]
      rw [this] at h
      rcases List.mem_cons.mp h with h1 | h2
      · have hq1 : ab = (q.1, q.2) ∧ pr = c := by
          constructor
          · exact congrArg Prod.fst h1
          · exact congrArg Prod.snd h1
        rw [hq1.1, hq1.2]
        exact getNextValidPrompt_some hg
      · exact ih h2

/-- Claim C2: for every player set and every shuffle outcome (all
permutations are covered by the oracle arguments), the prompt-assignment
engine never places, in either the even or the odd strategy, a prompt into
the assignment sequence of a player who authored it. -/
theorem claim_C2 (players : List Player) (prompts : List Prompt)
    (sigmaP sigmaPr : List Nat) (u : String) (pr : Prompt)
    (hN : 2 ≤ players.length)
    (hmem : pr ∈ assignedTo
      (assignPromptsToPlayers players prompts sigmaP sigmaPr) u) :
    pr.author ≠ u := by
  unfold assignedTo at hmem
  obtain ⟨e, he, hepr⟩ := List.mem_map.mp hmem
  have hf := List.mem_filter.mp he
  have hmem2 : (e.1, e.2) ∈ assignPromptsToPlayers players prompts sigmaP sigmaPr := by
    simpa using hf.1
  unfold assignPromptsToPlayers at hmem2
  have hv := processPairs_mem hmem2
  unfold promptValidFor at hv
  have hv2 := And.intro (Bool.and_elim_left hv) (Bool.and_elim_right hv)
  simp only [bne_iff_ne, ne_eq, decide_eq_true_eq] at hv2
  have hor : e.1.1 = u ∨ e.1.2 = u := by
    have := hf.2
    simp only [Bool.or_eq_true, decide_eq_true_eq] at this
    exact this
  subst hepr
  rcases hor with h | h
  · rw [← h]; exact hv2.1
  · rw [← h]; exact hv2.2

/-- Witness for C2 at a concrete 3-player round with the identity shuffle:
player a receives the prompt authored by c, whose author is not a. -/
theorem claim_C2_witness :
    2 ≤ fixAssignPlayers.length
    ∧ (⟨2, "prompt by c", "c"⟩ : Prompt) ∈ assignedTo
        (assignPromptsToPlayers fixAssignPlayers fixAssignPrompts [] []) "a"
    ∧ (⟨2, "prompt by c", "c"⟩ : Prompt).author ≠ "a" :=
  ⟨by decide, by decide,
    claim_C2 fixAssignPlayers fixAssignPrompts [] [] "a"
      ⟨2, "prompt by c", "c"⟩ (by decide) (by decide)⟩

/-- Claim C10: during VOTING, `handleVote` never checks the vote's promptId
against `activePrompts`: for an arbitrary promptId (no hypothesis ties it to
any active prompt), a player's vote on an existing other player is accepted,
recorded in `votesCast`, and grows the key count that the vote-completion
predicate `allVotesSubmitted` measures. -/
theorem claim_C10 (s : GameState) (sid : String) (promptId : Nat) (t : String)
    (u : User) (vp tp : Player)
    (hu : findUserBySocketId s sid = some u)
    (hstage : s.stage = "VOTING")
    (htp : s.players.find? (fun p => p.username = t) = some tp)
    (hne : tp.username ≠ userUsername u)
    (hvp : s.players.find? (fun p => p.username = userUsername u) = some vp)
    (hnew : alGet promptId vp.state.votesCast = none) :
    (handleVote s sid (some promptId) (some t)).result = true
    ∧ ∃ vp', (handleVote s sid (some promptId) (some t)).state.players.find?
          (fun p => p.username = userUsername u) = some vp'
        ∧ alGet promptId vp'.state.votesCast = some tp.username
        ∧ vp'.state.votesCast.length = vp.state.votesCast.length + 1
        ∧ (handleVote s sid (some promptId) (some t)).state.activePrompts
            = s.activePrompts := by
  have hveq : handleVote s sid (some promptId) (some t)
      = ⟨votedState s promptId (userUsername u) tp.username, true⟩ := by
    unfold handleVote votedState
    simp [hu, hstage, htp, hvp, hne, hnew, truthyStr]
  rw [hveq]
  refine ⟨rfl, ?_⟩
  have hother : (votedState s promptId (userUsername u) tp.username).players.find?
        (fun p => p.username = userUsername u)
      = (updateFirst (fun p => p.username = userUsername u)
          (castVoteUpd promptId tp.username) s.players).find?
            (fun p => p.username = userUsername u) := by
    show (updateFirst (fun p => p.username = tp.username) recvVoteUpd
        (updateFirst (fun p => p.username = userUsername u)
          (castVoteUpd promptId tp.username) s.players)).find?
            (fun p => p.username = userUsername u) = _
    apply find?_updateFirst_other
    intro x hx
    simp only [decide_eq_true_eq] at hx
    constructor
    · simp only [decide_eq_false_iff_not]
      rw [hx]; exact hne
    · simp only [recvVoteUpd, decide_eq_false_iff_not]
      rw [hx]; exact hne
  have hmap : (updateFirst (fun p => p.username = userUsername u)
      (castVoteUpd promptId tp.username) s.players).find?
        (fun p => p.username = userUsername u)
      = some (castVoteUpd promptId tp.username vp) := by
    rw [find?_updateFirst_map (fun p => decide (p.username = userUsername u))
      (castVoteUpd promptId tp.username) (fun x => by rfl), hvp]
    rfl
  refine ⟨castVoteUpd promptId tp.username vp, hother.trans hmap, ?_, ?_, rfl⟩
  · exact alGet_alSet_self promptId tp.username vp.state.votesCast
  · exact length_alSet_of_none promptId tp.username vp.state.votesCast hnew

/-- Witness for C10: in the concrete VOTING session `fixVote` with the only
active prompt id 0, player a's vote on promptId 99 is accepted and
recorded. -/
theorem claim_C10_witness :
    (∀ pr ∈ fixVote.activePrompts, pr.id ≠ 99)
    ∧ (handleVote fixVote "sa" (some 99) (some "b")).result = true
    ∧ ∃ vp', (handleVote fixVote "sa" (some 99) (some "b")).state.players.find?
          (fun p => p.username = userUsername (User.player (mkVoter "sa" "a" true)))
          = some vp'
        ∧ alGet 99 vp'.state.votesCast = some (mkVoter "sb" "b" false).username
        ∧ vp'.state.votesCast.length
            = (mkVoter "sa" "a" true).state.votesCast.length + 1
        ∧ (handleVote fixVote "sa" (some 99) (some "b")).state.activePrompts
            = fixVote.activePrompts := by
  have h := claim_C10 fixVote "sa" 99 "b"
    (User.player (mkVoter "sa" "a" true)) (mkVoter "sa" "a" true)
    (mkVoter "sb" "b" false) (by decide) (by decide) (by decide) (by decide)
    (by decide) (by decide)
  exact ⟨by decide, h.1, h.2⟩

/-- Claim C6: during VOTING, every audience vote event targeting an
existing player other than the voter is accepted and bumps
`audienceVotes[promptId][target]` by exactly one — no cap and no
duplicate-vote rejection (no hypothesis restricts the voter's history). -/
theorem claim_C6 (s : GameState) (sid : String) (promptId : Nat) (t : String)
    (a : AudienceMember) (tp : Player)
    (hu : findUserBySocketId s sid = some (User.aud a))
    (hstage : s.stage = "VOTING")
    (htp : s.players.find? (fun p => p.username = t) = some tp)
    (hne : tp.username ≠ a.username)
    (hnp : s.players.find? (fun p => p.username = a.username) = none) :
    handleVote s sid (some promptId) (some t)
      = ⟨{ s with audienceVotes := avBump s.audienceVotes promptId t }, true⟩
    ∧ audienceTally (avBump s.audienceVotes promptId t) promptId t
        = audienceTally s.audienceVotes promptId t + 1 := by
  constructor
  · unfold handleVote avBump
    simp [hu, hstage, htp, hne, hnp, userUsername]
  · simp [audienceTally, avBump, alGet_alSet_self]

/-- Witness for C6: in `fixAud`, the audience member z votes three times for
player a on promptId 0; every vote is accepted and the tally reaches 3. -/
theorem claim_C6_witness :
    (handleVote fixAud "sz" (some 0) (some "a")).result = true
    ∧ (handleVote fixAud1 "sz" (some 0) (some "a")).result = true
    ∧ (handleVote fixAud2 "sz" (some 0) (some "a")).result = true
    ∧ audienceTally
        (handleVote fixAud2 "sz" (some 0) (some "a")).state.audienceVotes
        0 "a" = 3 := by
  have h1 := claim_C6 fixAud "sz" 0 "a"
    ⟨"sz", "z", "sz", ⟨"AUDIENCE", none, []⟩⟩ (mkVoter "sa" "a" true)
    (by decide) (by decide) (by decide) (by decide) (by decide)
  have h2 := claim_C6 fixAud1 "sz" 0 "a"
    ⟨"sz", "z", "sz", ⟨"AUDIENCE", none, []⟩⟩ (mkVoter "sa" "a" true)
    (by decide) (by decide) (by decide) (by decide) (by decide)
  have h3 := claim_C6 fixAud2 "sz" 0 "a"
    ⟨"sz", "z", "sz", ⟨"AUDIENCE", none, []⟩⟩ (mkVoter "sa" "a" true)
    (by decide) (by decide) (by decide) (by decide) (by decide)
  refine ⟨?_, ?_, ?_, ?_⟩
  · rw [h1.1]
  · rw [h2.1]
  · rw [h3.1]
  · rw [h3.1]; decide

/-- Counterexample for C7: the duplicate-vote check is a JS truthiness test
on `votesCast[promptId]`, so when the stored target username is the empty
string the entry is invisible to it.  In `fixEmptyName` (second player's
username is ""), player a's first vote on promptId 0 is accepted and stores
`votesCast[0] = ""`; the second vote on the same promptId — already present
in `votesCast` — is accepted again (the claim requires `result:false`) and
mutates the target's `roundVotes` from 1 to 2 (the claim requires no
mutation). -/
theorem claim_C7_counterexample :
    (handleVote fixEmptyName "sa" (some 0) (some "")).result = true
    ∧ (fixEmptyName1.players.find? (fun p => p.username = "a")).map
        (fun p => p.state.votesCast) = some [(0, "")]
    ∧ (handleVote fixEmptyName1 "sa" (some 0) (some "")).result = true
    ∧ ((handleVote fixEmptyName1 "sa" (some 0) (some "")).state.players.find?
        (fun p => p.username = "")).map (fun p => p.state.roundVotes)
        = some 2 := by
  decide

/-- Claim C7 (amended): a second player vote for a promptId already present
in `votesCast` is rejected with `result:false` and no state change,
provided the stored target username for that promptId is nonempty (the code
tests JS truthiness of `votesCast[promptId]`, not key presence). -/
theorem claim_C7 (s : GameState) (sid : String) (promptId : Nat) (t : String)
    (u : User) (vp tp : Player)
    (hu : findUserBySocketId s sid = some u)
    (hstage : s.stage = "VOTING")
    (htp : s.players.find? (fun p => p.username = t) = some tp)
    (hne : tp.username ≠ userUsername u)
    (hvp : s.players.find? (fun p => p.username = userUsername u) = some vp)
    (hdup : truthyStr (alGet promptId vp.state.votesCast) = true) :
    handleVote s sid (some promptId) (some t) = ⟨s, false⟩ := by
  unfold handleVote
  simp [hu, hstage, htp, hne, hvp, hdup]

/-- Witness for C7: in `fixDup` (player a already voted for b on
promptId 0, a nonempty stored target), a's second vote on promptId 0 is
rejected and the session state is returned unchanged. -/
theorem claim_C7_witness :
    handleVote fixDup "sa" (some 0) (some "b") = ⟨fixDup, false⟩ :=
  claim_C7 fixDup "sa" 0 "b" (User.player fixDupPlayer) fixDupPlayer
    (mkVoter "sb" "b" false) (by decide) (by decide) (by decide) (by decide)
    (by decide) (by decide)

/-- Counterexample for C5: in `fixAnswer` the player's only assigned prompt
has id 0, yet an answer for promptId 7 — assigned to nobody — is accepted
(`result:true`) and recorded in the player's `answers`, while the claim
requires it to be rejected and record nothing: `handleAnswer` never checks
the promptId against `assignedPrompts`. -/
theorem claim_C5_counterexample :
    (∀ pr ∈ ((fixAnswer.players.find? (fun p => p.socketId = "sa")).map
        (fun p => p.state.assignedPrompts)).getD [], pr.id ≠ 7)
    ∧ (handleAnswer fixAnswer "sa" (some 7) "my answer").result = true
    ∧ ((handleAnswer fixAnswer "sa" (some 7) "my answer").state.players.find?
        (fun p => p.socketId = "sa")).map (fun p => alGet 7 p.state.answers)
        = some (some "my answer") := by
  decide

/-- Claim C5 (amended): during ANSWERS, a player's answer message with
truthy text is accepted for EVERY promptId — there is no check against
`assignedPrompts`, so an answer for an unassigned promptId is accepted and
recorded too.  The answer overwrites any previous answer for that promptId
(last write wins), and the status is set to ANSWER_SUBMITTED exactly when
the assignment is nonempty and every assigned prompt has an answer.
Outside ANSWERS the message is rejected without any state change. -/
theorem claim_C5 (s : GameState) (sid : String) (promptId : Nat)
    (text : String) (p : Player)
    (hp : s.players.find? (fun q => q.socketId = sid) = some p)
    (hstat : p.state.status ≠ "AUDIENCE")
    (hstage : s.stage = "ANSWERS")
    (htext : text ≠ "") :
    ((handleAnswer s sid (some promptId) text).result = true
      ∧ ∃ p', (handleAnswer s sid (some promptId) text).state.players.find?
            (fun q => q.socketId = sid) = some p'
          ∧ p'.state.answers = alSet promptId (jsTrim text) p.state.answers
          ∧ alGet promptId p'.state.answers = some (jsTrim text)
          ∧ p'.state.assignedPrompts = p.state.assignedPrompts
          ∧ p'.state.status = (if allAnsweredAfter p promptId (jsTrim text)
              then "ANSWER_SUBMITTED" else p.state.status))
    ∧ ∀ s2 : GameState, s2.stage ≠ "ANSWERS" →
        handleAnswer s2 sid (some promptId) text = ⟨s2, false⟩ := by
  have hu : findUserBySocketId s sid = some (User.player p) := by
    unfold findUserBySocketId
    rw [hp]
  constructor
  · have haeq : handleAnswer s sid (some promptId) text
        = ⟨answeredState s sid promptId (jsTrim text)
            (allAnsweredAfter p promptId (jsTrim text)), true⟩ := by
      unfold handleAnswer
      simp [hu, hstat, hstage, htext, userStatus]
    rw [haeq]
    refine ⟨rfl, answerUpd promptId (jsTrim text)
      (allAnsweredAfter p promptId (jsTrim text)) p, ?_, rfl, ?_, rfl, rfl⟩
    · show (answeredState s sid promptId (jsTrim text)
          (allAnsweredAfter p promptId (jsTrim text))).players.find?
            (fun q => q.socketId = sid) = _
      unfold answeredState
      rw [find?_updateFirst_map (fun q => decide (q.socketId = sid))
        (answerUpd promptId (jsTrim text) (allAnsweredAfter p promptId (jsTrim text)))
        (fun x => by rfl), hp]
      rfl
    · exact alGet_alSet_self promptId (jsTrim text) p.state.answers
  · intro s2 hstage2
    unfold handleAnswer
    cases hu2 : findUserBySocketId s2 sid with
    | none => rfl
    | some u2 => simp [hstage2]

/-- Witness for C5: concrete acceptance of an answer in `fixAnswer` for the
assigned promptId 0, recorded verbatim and flipping the status to
ANSWER_SUBMITTED; plus the rejection outside ANSWERS. -/
theorem claim_C5_witness :
    ((handleAnswer fixAnswer "sa" (some 0) "my fine answer").result = true
      ∧ ∃ p', (handleAnswer fixAnswer "sa" (some 0)
            "my fine answer").state.players.find?
            (fun q => q.socketId = "sa") = some p'
          ∧ p'.state.answers = alSet 0 (jsTrim "my fine answer")
              (fixAnswer.players.headD (mkVoter "x" "x" false)).state.answers
          ∧ alGet 0 p'.state.answers = some (jsTrim "my fine answer")
          ∧ p'.state.assignedPrompts = (fixAnswer.players.headD
              (mkVoter "x" "x" false)).state.assignedPrompts
          ∧ p'.state.status = (if allAnsweredAfter (fixAnswer.players.headD
                (mkVoter "x" "x" false)) 0 (jsTrim "my fine answer")
              then "ANSWER_SUBMITTED"
              else (fixAnswer.players.headD
                (mkVoter "x" "x" false)).state.status))
    ∧ ∀ s2 : GameState, s2.stage ≠ "ANSWERS" →
        handleAnswer s2 "sa" (some 0) "my fine answer" = ⟨s2, false⟩ :=
  claim_C5 fixAnswer "sa" 0 "my fine answer"
    (fixAnswer.players.headD (mkVoter "x" "x" false))
    (by decide) (by decide) (by decide) (by decide)

/-- Counterexample for C1: in `fixVote` (one active prompt, id 0), player
a votes on the non-active promptId 99 and player b votes on promptId 0 —
both votes accepted.  In the resulting state player a has cast zero votes
for the active prompt 0, so "every player has cast exactly one vote for
every prompt in `activePrompts`" is false; yet the admin's advance succeeds
and runs the Scoring Engine, because the guard `allVotesSubmitted` only
compares the number of `votesCast` keys against the number of active
prompts.  This refutes the claimed "only if" direction. -/
theorem claim_C1_counterexample :
    (handleVote fixVote "sa" (some 99) (some "b")).result = true
    ∧ (handleVote fixVote1 "sb" (some 0) (some "a")).result = true
    ∧ (fixVote2.players.find? (fun p => p.username = "a")).map
        (fun p => votesCastFor p 0) = some 0
    ∧ fixVote2.activePrompts.map (fun pr => pr.id) = [0]
    ∧ (handleAdvanceGame fixVote2 "sa" [] []).result = true
    ∧ (handleAdvanceGame fixVote2 "sa" [] []).state
        = endVotingAndScoreRound fixVote2
    ∧ (handleAdvanceGame fixVote2 "sa" [] []).state.stage = "SCORING" := by
  decide

theorem allVotesSubmitted_iff (s : GameState) :
    allVotesSubmitted s = true
      ↔ s.players ≠ [] ∧ s.activePrompts ≠ []
        ∧ ∀ p ∈ s.players,
            p.state.votesCast.length = s.activePrompts.length := by
  unfold allVotesSubmitted
  by_cases h1 : s.players.isEmpty <;> by_cases h2 : s.activePrompts.isEmpty <;>
    simp_all [List.isEmpty_iff, List.all_eq_true]

/-- Claim C1 (amended): an admin-triggered advance out of VOTING succeeds
(and then runs the Scoring Engine, `endVotingAndScoreRound`) iff the player
list and `activePrompts` are nonempty and every player's `votesCast` holds
exactly as many entries as there are active prompts — the entries need not
be for active prompt ids.  Audience votes never gate the transition, and
when the guard fails the request is rejected with a failure result and the
session state is unchanged. -/
theorem claim_C1 (s : GameState) (sid : String) (sigmaP sigmaPr : List Nat)
    (u : User)
    (hu : findUserBySocketId s sid = some u)
    (hadm : userIsAdmin u = true)
    (hstage : s.stage = "VOTING") :
    ((handleAdvanceGame s sid sigmaP sigmaPr).result = true
        ↔ s.players ≠ [] ∧ s.activePrompts ≠ []
          ∧ ∀ p ∈ s.players,
              p.state.votesCast.length = s.activePrompts.length)
    ∧ ((handleAdvanceGame s sid sigmaP sigmaPr).result = true →
        (handleAdvanceGame s sid sigmaP sigmaPr).state
          = endVotingAndScoreRound s)
    ∧ ((handleAdvanceGame s sid sigmaP sigmaPr).result = false →
        (handleAdvanceGame s sid sigmaP sigmaPr).state = s) := by
  by_cases hall : allVotesSubmitted s = true
  · have hred : handleAdvanceGame s sid sigmaP sigmaPr
        = ⟨endVotingAndScoreRound s, true⟩ := by
      unfold handleAdvanceGame
      simp [hu, hadm, hstage, hall]
    rw [hred]
    refine ⟨?_, fun _ => rfl, fun h => by simp at h⟩
    simp only [true_iff]
    exact (allVotesSubmitted_iff s).mp hall
  · have hallf : allVotesSubmitted s = false := by
      exact Bool.not_eq_true _ ▸ Bool.eq_false_iff.mpr hall
    have hred : handleAdvanceGame s sid sigmaP sigmaPr = ⟨s, false⟩ := by
      unfold handleAdvanceGame
      simp [hu, hadm, hstage, hallf]
    rw [hred]
    refine ⟨?_, fun h => by simp at h, fun _ => rfl⟩
    simp only [Bool.false_eq_true, false_iff]
    intro hc
    exact hall ((allVotesSubmitted_iff s).mpr hc)

/-- Witness for C1 at the concrete state `fixVote` (no votes cast yet): the
guard characterisation holds, the advance is rejected and the state is
returned unchanged. -/
theorem claim_C1_witness :
    ((handleAdvanceGame fixVote "sa" [] []).result = true
        ↔ fixVote.players ≠ [] ∧ fixVote.activePrompts ≠ []
          ∧ ∀ p ∈ fixVote.players,
              p.state.votesCast.length = fixVote.activePrompts.length)
    ∧ ((handleAdvanceGame fixVote "sa" [] []).result = true →
        (handleAdvanceGame fixVote "sa" [] []).state
          = endVotingAndScoreRound fixVote)
    ∧ ((handleAdvanceGame fixVote "sa" [] []).result = false →
        (handleAdvanceGame fixVote "sa" [] []).state = fixVote) :=
  claim_C1 fixVote "sa" [] [] (User.player (mkVoter "sa" "a" true))
    (by decide) (by decide) (by decide)

theorem addPts_addPts (a b : Nat) (p : Player) :
    addPts a (addPts b p) = addPts (b + a) p := by
  simp [addPts, Nat.add_assoc]

theorem find?_bump_eq (u : String) (d : Nat) (l : List Player) :
    (bumpPlayerScore u d l).find? (fun p => p.username = u)
      = (l.find? (fun p => p.username = u)).map (addPts d) :=
  find?_updateFirst_map (fun p => decide (p.username = u)) (addPts d)
    (fun x => by rfl) l

theorem find?_bump_ne (v u : String) (d : Nat) (l : List Player)
    (h : v ≠ u) :
    (bumpPlayerScore v d l).find? (fun p => p.username = u)
      = l.find? (fun p => p.username = u) := by
  apply find?_updateFirst_other
  intro x hx
  simp only [decide_eq_true_eq] at hx
  constructor
  · simp only [decide_eq_false_iff_not]
    rw [hx]; exact h
  · simp only [addPts, decide_eq_false_iff_not]
    rw [hx]; exact h

theorem find?_foldTargets (u : String) :
    ∀ (ts : List (String × Nat)) (l : List Player),
    (ts.foldl (fun acc t =>
        bumpPlayerScore t.1 (t.2 * AUDIENCE_VOTE_POINTS) acc) l).find?
          (fun p => p.username = u)
      = (l.find? (fun p => p.username = u)).map
          (addPts (sumFor ts u * AUDIENCE_VOTE_POINTS)) := by
  intro ts
  induction ts with
  | nil =>
    intro l
    have hid : ∀ p : Player, addPts (sumFor [] u * AUDIENCE_VOTE_POINTS) p = p := by
      intro p
      simp [sumFor, addPts]
    cases hf : l.find? (fun p => p.username = u) <;> simp [hf, hid]
  | cons t rest ih =>
    intro l
    show (rest.foldl _ (bumpPlayerScore t.1 (t.2 * AUDIENCE_VOTE_POINTS) l)).find? _ = _
    rw [ih]
    by_cases ht : t.1 = u
    · subst ht
      rw [find?_bump_eq]
      cases hf : l.find? (fun p => p.username = t.1) <;>
        simp [hf, addPts_addPts, sumFor, Nat.add_mul]
    · rw [find?_bump_ne t.1 u _ l ht]
      have : sumFor (t :: rest) u = sumFor rest u := by
        simp [sumFor, List.filter_cons, ht]
      rw [this]

theorem find?_applyAudienceVotes (u : String) :
    ∀ (av : List (Nat × List (String × Nat))) (l : List Player),
    (applyAudienceVotes av l).find? (fun p => p.username = u)
      = (l.find? (fun p => p.username = u)).map
          (addPts (audSum av u * AUDIENCE_VOTE_POINTS)) := by
  intro av
  induction av with
  | nil =>
    intro l
    have hid : ∀ p : Player, addPts (audSum [] u * AUDIENCE_VOTE_POINTS) p = p := by
      intro p
      simp [audSum, addPts]
    cases hf : l.find? (fun p => p.username = u) <;>
      simp [applyAudienceVotes, hf, hid]
  | cons e rest ih =>
    intro l
    show (applyAudienceVotes rest (e.2.foldl _ l)).find? _ = _
    rw [ih, find?_foldTargets]
    cases hf : l.find? (fun p => p.username = u) <;>
      simp [hf, addPts_addPts, audSum, Nat.add_mul]

/-- Claim C3: on the VOTING to SCORING-or-GAME_OVER transition, each
player's `roundScore` is set to
`round * roundVotes * PLAYER_VOTE_POINTS` plus
`voteCount * AUDIENCE_VOTE_POINTS` summed over the audience-tally entries
targeting that player's username, exactly that amount is added to the
cumulative score, and the stage becomes GAME_OVER after round 3 and SCORING
otherwise. -/
theorem claim_C3 (s : GameState) (u : String) (p : Player)
    (hnd : (s.players.map (fun q => q.username)).Nodup)
    (hp : s.players.find? (fun q => q.username = u) = some p) :
    ∃ p', (endVotingAndScoreRound s).players.find?
        (fun q => q.username = u) = some p'
      ∧ p'.state.roundScore
          = s.round * p.state.roundVotes * PLAYER_VOTE_POINTS
            + audSum s.audienceVotes u * AUDIENCE_VOTE_POINTS
      ∧ p'.score = p.score + p'.state.roundScore
      ∧ (endVotingAndScoreRound s).stage
          = (if s.round ≥ 3 then "GAME_OVER" else "SCORING") := by
  have hfind : (endVotingAndScoreRound s).players.find?
      (fun q => q.username = u)
      = some (addPts (audSum s.audienceVotes u * AUDIENCE_VOTE_POINTS)
          ((fun q => { q with
              score := q.score + s.round * q.state.roundVotes * PLAYER_VOTE_POINTS,
              state := { q.state with roundScore := q.state.roundScore +
                s.round * q.state.roundVotes * PLAYER_VOTE_POINTS } })
            ({ p with state := { p.state with roundScore := 0 } }))) := by
    show (applyAudienceVotes s.audienceVotes _).find? _ = _
    rw [find?_applyAudienceVotes]
    rw [find?_map_pres _ _ (fun x => by rfl)]
    rw [find?_map_pres _ _ (fun x => by rfl)]
    rw [hp]
    rfl
  refine ⟨_, hfind, ?_, ?_, rfl⟩
  · simp [addPts]
  · simp [addPts, Nat.add_assoc]

/-- Witness for C3 at `fixScore` (round 2, player a with `roundVotes = 3`,
prior score 50, no audience votes): `roundScore = 600` and the score moves
to exactly 650, with the stage becoming SCORING. -/
theorem claim_C3_witness :
    ∃ p', (endVotingAndScoreRound fixScore).players.find?
        (fun q => q.username = "a") = some p'
      ∧ p'.state.roundScore = 600
      ∧ p'.score = 650
      ∧ (endVotingAndScoreRound fixScore).stage = "SCORING" := by
  obtain ⟨p', h1, h2, h3, h4⟩ :=
    claim_C3 fixScore "a" fixScorePlayer (by decide) (by decide)
  refine ⟨p', h1, ?_, ?_, ?_⟩
  · rw [h2]; decide
  · rw [h3, h2]; decide
  · rw [h4]; decide

theorem map_map_pres {α β : Type} (g : α → β) (f : α → α)
    (hf : ∀ x, g (f x) = g x) (l : List α) : (l.map f).map g = l.map g := by
  induction l with
  | nil => rfl
  | cons x xs ih => simp [hf, ih]

theorem map_foldBump {β : Type} (g : Player → β)
    (hg : ∀ (p : Player) sc st, g { p with score := sc, state := st } = g p) :
    ∀ (ts : List (String × Nat)) (l : List Player),
    ((ts.foldl (fun acc t =>
        bumpPlayerScore t.1 (t.2 * AUDIENCE_VOTE_POINTS) acc) l).map g)
      = l.map g := by
  intro ts
  induction ts with
  | nil => intro l; rfl
  | cons t rest ih =>
    intro l
    show ((rest.foldl _ (bumpPlayerScore t.1 (t.2 * AUDIENCE_VOTE_POINTS) l)).map g) = _
    rw [ih]
    exact map_updateFirst g _ _ (fun x => hg x _ _) l

theorem map_applyAudienceVotes {β : Type} (g : Player → β)
    (hg : ∀ (p : Player) sc st, g { p with score := sc, state := st } = g p) :
    ∀ (av : List (Nat × List (String × Nat))) (l : List Player),
    (applyAudienceVotes av l).map g = l.map g := by
  intro av
  induction av with
  | nil => intro l; rfl
  | cons e rest ih =>
    intro l
    show (applyAudienceVotes rest _).map g = _
    rw [ih]
    exact map_foldBump g hg e.2 l

theorem maps_handlePrompt {β γ : Type} (g : Player → β) (gA : AudienceMember → γ)
    (hg : ∀ (p : Player) sc st, g { p with score := sc, state := st } = g p)
    (hgA : ∀ (a : AudienceMember) st, gA { a with state := st } = gA a)
    (s : GameState) (sid : String) (t : Option String) (ok : Bool) :
    (handlePrompt s sid t ok).state.players.map g = s.players.map g
    ∧ (handlePrompt s sid t ok).state.audience.map gA = s.audience.map gA := by
  unfold handlePrompt
  cases hU : findUserBySocketId s sid with
  | none => exact ⟨rfl, rfl⟩
  | some u =>
    cases u with
    | player p =>
      dsimp only
      repeat' split
      all_goals try (refine ⟨?_, ?_⟩ <;> rfl)
      exact ⟨map_updateFirst g _ _ (fun x => hg x _ _) s.players, rfl⟩
    | aud a =>
      dsimp only
      repeat' split
      all_goals try (refine ⟨?_, ?_⟩ <;> rfl)
      exact ⟨rfl, map_updateFirst gA _ _ (fun x => hgA x _) s.audience⟩

theorem maps_handleAnswer {β γ : Type} (g : Player → β) (gA : AudienceMember → γ)
    (hg : ∀ (p : Player) sc st, g { p with score := sc, state := st } = g p)
    (hgA : ∀ (a : AudienceMember) st, gA { a with state := st } = gA a)
    (s : GameState) (sid : String) (pid : Option Nat) (t : String) :
    (handleAnswer s sid pid t).state.players.map g = s.players.map g
    ∧ (handleAnswer s sid pid t).state.audience.map gA = s.audience.map gA := by
  unfold handleAnswer answeredState
  cases hU : findUserBySocketId s sid with
  | none => exact ⟨rfl, rfl⟩
  | some u =>
    dsimp only
    repeat' split
    all_goals try (refine ⟨?_, ?_⟩ <;> rfl)
    · exact ⟨map_updateFirst g _ _ (fun x => hg x _ _) s.players, rfl⟩
    · exact ⟨rfl, map_updateFirst gA _ _ (fun x => hgA x _) s.audience⟩

theorem maps_handleVote {β γ : Type} (g : Player → β) (gA : AudienceMember → γ)
    (hg : ∀ (p : Player) sc st, g { p with score := sc, state := st } = g p)
    (hgA : ∀ (a : AudienceMember) st, gA { a with state := st } = gA a)
    (s : GameState) (sid : String) (pid : Option Nat) (t : Option String) :
    (handleVote s sid pid t).state.players.map g = s.players.map g
    ∧ (handleVote s sid pid t).state.audience.map gA = s.audience.map gA := by
  unfold handleVote
  cases hU : findUserBySocketId s sid with
  | none => exact ⟨rfl, rfl⟩
  | some u =>
    dsimp only
    repeat' split
    all_goals try (refine ⟨?_, ?_⟩ <;> rfl)
    refine ⟨?_, rfl⟩
    rw [map_updateFirst g _ recvVoteUpd (fun x => hg x _ _)]
    exact map_updateFirst g _ _ (fun x => hg x _ _) s.players

theorem maps_startPromptStage {β γ : Type} (g : Player → β)
    (gA : AudienceMember → γ)
    (hg : ∀ (p : Player) sc st, g { p with score := sc, state := st } = g p)
    (hgA : ∀ (a : AudienceMember) st, gA { a with state := st } = gA a)
    (s : GameState) :
    (startPromptStage s).players.map g = s.players.map g
    ∧ (startPromptStage s).audience.map gA = s.audience.map gA :=
  ⟨map_map_pres g _ (fun x => hg x _ _) s.players,
   map_map_pres gA _ (fun x => hgA x _) s.audience⟩

theorem maps_startAnswerStage {β γ : Type} (g : Player → β)
    (gA : AudienceMember → γ)
    (hg : ∀ (p : Player) sc st, g { p with score := sc, state := st } = g p)
    (hgA : ∀ (a : AudienceMember) st, gA { a with state := st } = gA a)
    (s : GameState) (sigmaP sigmaPr : List Nat) :
    (startAnswerStage s sigmaP sigmaPr).players.map g = s.players.map g
    ∧ (startAnswerStage s sigmaP sigmaPr).audience.map gA
        = s.audience.map gA := by
  unfold startAnswerStage
  dsimp only
  split
  · exact ⟨rfl, rfl⟩
  · exact ⟨map_map_pres g _ (fun x => hg x _ _) s.players, rfl⟩

theorem maps_startVotingStage {β γ : Type} (g : Player → β)
    (gA : AudienceMember → γ)
    (hg : ∀ (p : Player) sc st, g { p with score := sc, state := st } = g p)
    (s : GameState) :
    (startVotingStage s).players.map g = s.players.map g
    ∧ (startVotingStage s).audience.map gA = s.audience.map gA :=
  ⟨map_map_pres g _ (fun x => hg x _ _) s.players, rfl⟩

theorem maps_endVoting {β γ : Type} (g : Player → β) (gA : AudienceMember → γ)
    (hg : ∀ (p : Player) sc st, g { p with score := sc, state := st } = g p)
    (s : GameState) :
    (endVotingAndScoreRound s).players.map g = s.players.map g
    ∧ (endVotingAndScoreRound s).audience.map gA = s.audience.map gA := by
  refine ⟨?_, rfl⟩
  show (applyAudienceVotes s.audienceVotes _).map g = _
  rw [map_applyAudienceVotes g hg]
  rw [map_map_pres g _ (fun x => hg x _ _)]
  exact map_map_pres g _ (fun x => hg x _ _) s.players

theorem maps_nextMessage {β γ : Type} (g : Player → β) (gA : AudienceMember → γ)
    (hg : ∀ (p : Player) sc st, g { p with score := sc, state := st } = g p)
    (hgA : ∀ (a : AudienceMember) st, gA { a with state := st } = gA a)
    (s : GameState) (sid : String) (sigmaP sigmaPr : List Nat) :
    (nextMessage s sid sigmaP sigmaPr).state.players.map g = s.players.map g
    ∧ (nextMessage s sid sigmaP sigmaPr).state.audience.map gA
        = s.audience.map gA := by
  unfold nextMessage handleStartGame handleAdvanceGame
  repeat' split
  all_goals try (refine ⟨?_, ?_⟩ <;> rfl)
  · exact maps_startPromptStage g gA hg hgA s
  · exact maps_startAnswerStage g gA hg hgA s sigmaP sigmaPr
  · exact maps_startVotingStage g gA hg s
  · exact maps_endVoting g gA hg s
  · exact maps_startPromptStage g gA hg hgA s

theorem filterAdmin_len :
    ∀ {l' l : List Player},
    l'.map (fun p => p.isAdmin) = l.map (fun p => p.isAdmin) →
    (l'.filter (fun p => p.isAdmin)).length
      = (l.filter (fun p => p.isAdmin)).length := by
  intro l'
  induction l' with
  | nil =>
    intro l h
    cases l with
    | nil => rfl
    | cons y ys => simp at h
  | cons x xs ih =>
    intro l h
    cases l with
    | nil => simp at h
    | cons y ys =>
      simp only [List.map_cons, List.cons.injEq] at h
      by_cases hx : x.isAdmin
      · have hy : y.isAdmin = true := h.1 ▸ hx
        simp [List.filter_cons, hx, hy, ih h.2]
      · have hx' : x.isAdmin = false := Bool.eq_false_iff.mpr hx
        have hy : y.isAdmin = false := h.1 ▸ hx'
        simp [List.filter_cons, hx', hy, ih h.2]

theorem adminCount_step_le (s : GameState) (op : Op)
    (h : adminCount s ≤ 1) : adminCount (step s op) ≤ 1 := by
  cases op with
  | login sid uname =>
    show adminCount (addPlayerOrAudience s sid uname) ≤ 1
    unfold addPlayerOrAudience
    split
    · unfold adminCount
      dsimp only
      rw [List.filter_append, List.length_append]
      by_cases hlen : s.players.length = 0
      · have hnil : s.players = [] := List.length_eq_zero.mp hlen
        simp [hnil]
      · have hdec : decide (s.players.length = 0) = false := by simp [hlen]
        simp only [List.filter_cons, List.filter_nil, hdec, Bool.false_eq_true,
          if_false, List.length_nil, Nat.add_zero]
        exact h
    · exact h
  | disconnect sid =>
    show adminCount (removeBySocket s sid) ≤ 1
    unfold adminCount removeBySocket
    have hs : List.Sublist
        ((s.players.filter (fun p => p.socketId ≠ sid)).filter
          (fun p => p.isAdmin))
        (s.players.filter (fun p => p.isAdmin)) :=
      List.Sublist.filter _ (List.filter_sublist _)
    exact le_trans hs.length_le h
  | promptMsg sid t ok =>
    have hm := (maps_handlePrompt (fun p => p.isAdmin) (fun _ => true)
      (fun p sc st => rfl) (fun a st => rfl) s sid t ok).1
    show adminCount (handlePrompt s sid t ok).state ≤ 1
    unfold adminCount
    rw [filterAdmin_len hm]
    exact h
  | answerMsg sid pid t =>
    have hm := (maps_handleAnswer (fun p => p.isAdmin) (fun _ => true)
      (fun p sc st => rfl) (fun a st => rfl) s sid pid t).1
    show adminCount (handleAnswer s sid pid t).state ≤ 1
    unfold adminCount
    rw [filterAdmin_len hm]
    exact h
  | voteMsg sid pid t =>
    have hm := (maps_handleVote (fun p => p.isAdmin) (fun _ => true)
      (fun p sc st => rfl) (fun a st => rfl) s sid pid t).1
    show adminCount (handleVote s sid pid t).state ≤ 1
    unfold adminCount
    rw [filterAdmin_len hm]
    exact h
  | nextMsg sid sigmaP sigmaPr =>
    have hm := (maps_nextMessage (fun p => p.isAdmin) (fun _ => true)
      (fun p sc st => rfl) (fun a st => rfl) s sid sigmaP sigmaPr).1
    show adminCount (nextMessage s sid sigmaP sigmaPr).state ≤ 1
    unfold adminCount
    rw [filterAdmin_len hm]
    exact h

/-- Counterexample for C8: after alice and bob join during JOINING (alice,
the first joiner, is the admin) and alice disconnects, the reachable state
still has one player but zero players with `isAdmin = true` — the claim's
"exactly one admin whenever at least one player exists" fails because
disconnect never reassigns the admin flag. -/
theorem claim_C8_counterexample :
    Reachable fixAdminGone
    ∧ fixAdminGone.players.length = 1
    ∧ adminCount fixAdminGone = 0 := by
  refine ⟨?_, by decide, by decide⟩
  exact Reachable.step (Reachable.step (Reachable.step Reachable.init
    (Op.login "s1" "alice")) (Op.login "s2" "bob")) (Op.disconnect "s1")

/-- Claim C8 (amended): in every reachable session state at most one player
has `isAdmin = true`; `isAdmin` is granted only to the first player to join
while stage is JOINING and is never reassigned, so once the admin
disconnects a session can hold players with no admin at all. -/
theorem claim_C8 (s : GameState) (h : Reachable s) : adminCount s ≤ 1 := by
  induction h with
  | init => decide
  | step h op ih => exact adminCount_step_le _ op ih

/-- Witness for C8 at the reachable state `fixAdminGone`. -/
theorem claim_C8_witness : adminCount fixAdminGone ≤ 1 :=
  claim_C8 fixAdminGone
    (Reachable.step (Reachable.step (Reachable.step Reachable.init
      (Op.login "s1" "alice")) (Op.login "s2" "bob")) (Op.disconnect "s1"))

theorem sync_of_map_eq {α : Type} (f g : α → String) {l' l : List α}
    (hm : l'.map (fun x => (f x, g x)) = l.map (fun x => (f x, g x)))
    (h : ∀ x ∈ l, f x = g x) : ∀ x ∈ l', f x = g x := by
  intro x hx
  have hmem : (f x, g x) ∈ l'.map (fun x => (f x, g x)) :=
    List.mem_map_of_mem _ hx
  rw [hm] at hmem
  obtain ⟨y, hy, heq⟩ := List.mem_map.mp hmem
  have h1 : f y = f x := congrArg Prod.fst heq
  have h2 : g y = g x := congrArg Prod.snd heq
  rw [← h1, ← h2]
  exact h y hy

theorem idSync_step (s : GameState) (op : Op) (h : IdSync s) :
    IdSync (step s op) := by
  cases op with
  | login sid uname =>
    show IdSync (addPlayerOrAudience s sid uname)
    unfold addPlayerOrAudience
    split
    · refine ⟨?_, h.2⟩
      intro p hp
      rcases List.mem_append.mp hp with h1 | h2
      · exact h.1 p h1
      · rw [List.mem_singleton.mp h2]
    · refine ⟨h.1, ?_⟩
      intro a ha
      rcases List.mem_append.mp ha with h1 | h2
      · exact h.2 a h1
      · rw [List.mem_singleton.mp h2]
  | disconnect sid =>
    refine ⟨?_, ?_⟩
    · intro p hp
      exact h.1 p (List.mem_of_mem_filter hp)
    · intro a ha
      exact h.2 a (List.mem_of_mem_filter ha)
  | promptMsg sid t ok =>
    have hm := maps_handlePrompt (fun p => (p.id, p.socketId))
      (fun a => (a.id, a.socketId)) (fun p sc st => rfl) (fun a st => rfl)
      s sid t ok
    exact ⟨sync_of_map_eq _ _ hm.1 h.1, sync_of_map_eq _ _ hm.2 h.2⟩
  | answerMsg sid pid t =>
    have hm := maps_handleAnswer (fun p => (p.id, p.socketId))
      (fun a => (a.id, a.socketId)) (fun p sc st => rfl) (fun a st => rfl)
      s sid pid t
    exact ⟨sync_of_map_eq _ _ hm.1 h.1, sync_of_map_eq _ _ hm.2 h.2⟩
  | voteMsg sid pid t =>
    have hm := maps_handleVote (fun p => (p.id, p.socketId))
      (fun a => (a.id, a.socketId)) (fun p sc st => rfl) (fun a st => rfl)
      s sid pid t
    exact ⟨sync_of_map_eq _ _ hm.1 h.1, sync_of_map_eq _ _ hm.2 h.2⟩
  | nextMsg sid sigmaP sigmaPr =>
    have hm := maps_nextMessage (fun p => (p.id, p.socketId))
      (fun a => (a.id, a.socketId)) (fun p sc st => rfl) (fun a st => rfl)
      s sid sigmaP sigmaPr
    exact ⟨sync_of_map_eq _ _ hm.1 h.1, sync_of_map_eq _ _ hm.2 h.2⟩

theorem foldRanks_map_id :
    ∀ (xs : List (Nat × PublicPlayer)) (acc : List PublicPlayer),
    ((xs.foldl (fun acc ip =>
        updateFirst (fun q => q.id = ip.2.id)
          (fun q => { q with rank := some (ip.1 + 1) }) acc) acc).map
            (fun q => q.id))
      = acc.map (fun q => q.id) := by
  intro xs
  induction xs with
  | nil => intro acc; rfl
  | cons x rest ih =>
    intro acc
    show ((rest.foldl _ (updateFirst _ _ acc)).map _) = _
    rw [ih]
    exact map_updateFirst (fun q => q.id) (fun q => decide (q.id = x.2.id))
      (fun q => { q with rank := some (x.1 + 1) }) (fun q => rfl) acc

theorem payload_player_ids (s : GameState) :
    (broadcastPayload s).players.map (fun q => q.id)
      = s.players.map (fun p => p.id) := by
  show (assignRanks _).map _ = _
  unfold assignRanks
  rw [foldRanks_map_id, List.map_map]
  rfl

/-- Counterexample for C9: in the reachable single-player state
`fixOnePlayer`, the player's connection identifier (socketId) is "s1", and
the broadcast payload's player entry carries exactly that value in its `id`
field — the payload does contain a connection identifier for the player,
contradicting the claim. -/
theorem claim_C9_counterexample :
    Reachable fixOnePlayer
    ∧ fixOnePlayer.players.map (fun p => p.socketId) = ["s1"]
    ∧ (broadcastPayload fixOnePlayer).players.map (fun q => q.id)
        = ["s1"] := by
  refine ⟨Reachable.step Reachable.init (Op.login "s1" "alice"),
    by decide, by decide⟩

/-- Claim C9 (amended): the `gameState` broadcast payload never includes
the audience vote tally (it is independent of `audienceVotes`) and carries
no `socketId` field, but each player and audience entry does include `id` —
and in every reachable state that `id` equals the participant's connection
identifier (`socketId`), so the payload does expose connection
identifiers. -/
theorem claim_C9 :
    (∀ (s : GameState) (av : List (Nat × List (String × Nat))),
        broadcastPayload { s with audienceVotes := av } = broadcastPayload s)
    ∧ (∀ s : GameState,
        (broadcastPayload s).players.map (fun q => q.id)
            = s.players.map (fun p => p.id)
        ∧ (broadcastPayload s).audience.map (fun q => q.id)
            = s.audience.map (fun a => a.id))
    ∧ (∀ s : GameState, Reachable s → IdSync s) := by
  refine ⟨fun s av => rfl, ?_, ?_⟩
  · intro s
    refine ⟨payload_player_ids s, ?_⟩
    show (s.audience.map _).map _ = _
    rw [List.map_map]
    rfl
  · intro s h
    induction h with
    | init =>
      constructor
      · intro p hp
        cases hp
      · intro a ha
        cases ha
    | step h op ih => exact idSync_step _ op ih

/-- Witness for C9: the payload is unchanged when the audience tally of
`fixOnePlayer` is replaced, and the reachable state `fixOnePlayer`
satisfies the id/socketId synchronisation. -/
theorem claim_C9_witness :
    broadcastPayload
        { fixOnePlayer with audienceVotes := [(0, [("alice", 5)])] }
      = broadcastPayload fixOnePlayer
    ∧ IdSync fixOnePlayer :=
  ⟨claim_C9.1 fixOnePlayer [(0, [("alice", 5)])],
   claim_C9.2.2 fixOnePlayer
     (Reachable.step Reachable.init (Op.login "s1" "alice"))⟩

theorem rs_handlePrompt (s : GameState) (sid : String) (t : Option String)
    (ok : Bool) :
    (handlePrompt s sid t ok).state.round = s.round
    ∧ (handlePrompt s sid t ok).state.stage = s.stage := by
  unfold handlePrompt
  cases hU : findUserBySocketId s sid with
  | none => exact ⟨rfl, rfl⟩
  | some u =>
    cases u <;> (dsimp only; repeat' split) <;> exact ⟨rfl, rfl⟩

theorem rs_handleAnswer (s : GameState) (sid : String) (pid : Option Nat)
    (t : String) :
    (handleAnswer s sid pid t).state.round = s.round
    ∧ (handleAnswer s sid pid t).state.stage = s.stage := by
  unfold handleAnswer answeredState
  cases hU : findUserBySocketId s sid with
  | none => exact ⟨rfl, rfl⟩
  | some u =>
    dsimp only
    repeat' split
    all_goals exact ⟨rfl, rfl⟩

theorem rs_handleVote (s : GameState) (sid : String) (pid : Option Nat)
    (t : Option String) :
    (handleVote s sid pid t).state.round = s.round
    ∧ (handleVote s sid pid t).state.stage = s.stage := by
  unfold handleVote
  cases hU : findUserBySocketId s sid with
  | none => exact ⟨rfl, rfl⟩
  | some u =>
    dsimp only
    repeat' split
    all_goals exact ⟨rfl, rfl⟩

theorem startGame_cases (s : GameState) (sid : String) :
    (handleStartGame s sid).state = s
    ∨ (s.stage = "JOINING"
        ∧ (handleStartGame s sid).state = startPromptStage s) := by
  unfold handleStartGame
  cases hU : findUserBySocketId s sid with
  | none => exact Or.inl rfl
  | some u =>
    dsimp only
    split
    · exact Or.inl rfl
    · split
      · rename_i hj
        exact Or.inr ⟨hj, rfl⟩
      · exact Or.inl rfl

theorem advance_cases (s : GameState) (sid : String)
    (sigmaP sigmaPr : List Nat) :
    (handleAdvanceGame s sid sigmaP sigmaPr).state = s
    ∨ (s.stage = "PROMPTS" ∧ (handleAdvanceGame s sid sigmaP sigmaPr).state
        = startAnswerStage s sigmaP sigmaPr)
    ∨ (s.stage = "ANSWERS" ∧ (handleAdvanceGame s sid sigmaP sigmaPr).state
        = startVotingStage s)
    ∨ (s.stage = "VOTING" ∧ (handleAdvanceGame s sid sigmaP sigmaPr).state
        = endVotingAndScoreRound s)
    ∨ (s.stage = "SCORING" ∧ s.round ≥ 3
        ∧ (handleAdvanceGame s sid sigmaP sigmaPr).state
            = { s with stage := "GAME_OVER" })
    ∨ (s.stage = "SCORING" ∧ ¬s.round ≥ 3
        ∧ (handleAdvanceGame s sid sigmaP sigmaPr).state
            = startPromptStage s) := by
  unfold handleAdvanceGame
  cases hU : findUserBySocketId s sid with
  | none => exact Or.inl rfl
  | some u =>
    dsimp only
    split
    · exact Or.inl rfl
    · split
      · rename_i h1
        split
        · exact Or.inl rfl
        · exact Or.inr (Or.inl ⟨h1, rfl⟩)
      · split
        · rename_i h2
          split
          · exact Or.inl rfl
          · exact Or.inr (Or.inr (Or.inl ⟨h2, rfl⟩))
        · split
          · rename_i h3
            split
            · exact Or.inl rfl
            · exact Or.inr (Or.inr (Or.inr (Or.inl ⟨h3, rfl⟩)))
          · split
            · rename_i h4
              split
              · rename_i h5
                exact Or.inr (Or.inr (Or.inr (Or.inr (Or.inl ⟨h4, h5, rfl⟩))))
              · rename_i h5
                exact Or.inr (Or.inr (Or.inr (Or.inr (Or.inr ⟨h4, h5, rfl⟩))))
            · exact Or.inl rfl

theorem rs_startAnswerStage (s : GameState) (sigmaP sigmaPr : List Nat) :
    (startAnswerStage s sigmaP sigmaPr).round = s.round
    ∧ ((startAnswerStage s sigmaP sigmaPr).stage = s.stage
        ∨ (startAnswerStage s sigmaP sigmaPr).stage = "ANSWERS") := by
  unfold startAnswerStage
  dsimp only
  split
  · exact ⟨rfl, Or.inl rfl⟩
  · exact ⟨rfl, Or.inr rfl⟩

theorem step_shape (s : GameState) (op : Op) :
    ((step s op).round = s.round ∧ (step s op).stage = s.stage)
    ∨ ((step s op).round = s.round ∧ (step s op).stage = "ANSWERS"
        ∧ s.stage = "PROMPTS")
    ∨ ((step s op).round = s.round ∧ (step s op).stage = "VOTING"
        ∧ s.stage = "ANSWERS")
    ∨ ((step s op).round = s.round
        ∧ ((step s op).stage = "SCORING" ∨ (step s op).stage = "GAME_OVER")
        ∧ s.stage = "VOTING")
    ∨ ((step s op).round = s.round ∧ (step s op).stage = "GAME_OVER"
        ∧ s.stage = "SCORING")
    ∨ ((step s op).round = s.round + 1 ∧ (step s op).stage = "PROMPTS"
        ∧ (s.stage = "JOINING" ∨ s.stage = "SCORING")) := by
  cases op with
  | login sid uname =>
    left
    show (addPlayerOrAudience s sid uname).round = s.round
      ∧ (addPlayerOrAudience s sid uname).stage = s.stage
    unfold addPlayerOrAudience
    split <;> exact ⟨rfl, rfl⟩
  | disconnect sid => exact Or.inl ⟨rfl, rfl⟩
  | promptMsg sid t ok => exact Or.inl (rs_handlePrompt s sid t ok)
  | answerMsg sid pid t => exact Or.inl (rs_handleAnswer s sid pid t)
  | voteMsg sid pid t => exact Or.inl (rs_handleVote s sid pid t)
  | nextMsg sid sigmaP sigmaPr =>
    have hstep : step s (Op.nextMsg sid sigmaP sigmaPr)
        = (nextMessage s sid sigmaP sigmaPr).state := rfl
    rw [hstep]
    unfold nextMessage
    split
    · rename_i hj
      rcases startGame_cases s sid with h | ⟨hj2, h⟩
      · rw [h]
        exact Or.inl ⟨rfl, rfl⟩
      · rw [h]
        exact Or.inr (Or.inr (Or.inr (Or.inr (Or.inr
          ⟨rfl, rfl, Or.inl hj⟩))))
    · rcases advance_cases s sid sigmaP sigmaPr with
        h | ⟨h1, h⟩ | ⟨h2, h⟩ | ⟨h3, h⟩ | ⟨h4, h5, h⟩ | ⟨h4, h5, h⟩
      · rw [h]
        exact Or.inl ⟨rfl, rfl⟩
      · rw [h]
        rcases rs_startAnswerStage s sigmaP sigmaPr with ⟨hr, hs | hs⟩
        · exact Or.inl ⟨hr, hs⟩
        · exact Or.inr (Or.inl ⟨hr, hs, h1⟩)
      · rw [h]
        exact Or.inr (Or.inr (Or.inl ⟨rfl, rfl, h2⟩))
      · rw [h]
        refine Or.inr (Or.inr (Or.inr (Or.inl ⟨rfl, ?_, h3⟩)))
        have hst : (endVotingAndScoreRound s).stage
            = if s.round ≥ 3 then "GAME_OVER" else "SCORING" := rfl
        rw [hst]
        split
        · exact Or.inr rfl
        · exact Or.inl rfl
      · rw [h]
        exact Or.inr (Or.inr (Or.inr (Or.inr (Or.inl ⟨rfl, rfl, h4⟩))))
      · rw [h]
        exact Or.inr (Or.inr (Or.inr (Or.inr (Or.inr
          ⟨rfl, rfl, Or.inr h4⟩))))

/-- Claim C4: for every session state and every operation, the `round`
counter either stays the same or grows by exactly 1; it grows exactly on
the transitions that (re-)enter PROMPTS from JOINING or SCORING (the
`next` message), it is changed by no other operation, and it never
decreases. -/
theorem claim_C4 (s : GameState) (op : Op) :
    ((step s op).round = s.round
      ∨ ((step s op).round = s.round + 1 ∧ (step s op).stage = "PROMPTS"
          ∧ (s.stage = "JOINING" ∨ s.stage = "SCORING")))
    ∧ ((s.stage = "JOINING" ∨ s.stage = "SCORING") →
        (step s op).stage = "PROMPTS" → (step s op).round = s.round + 1)
    ∧ s.round ≤ (step s op).round := by
  rcases step_shape s op with
    ⟨hr, hs⟩ | ⟨hr, hs, hst⟩ | ⟨hr, hs, hst⟩ | ⟨hr, hs, hst⟩
      | ⟨hr, hs, hst⟩ | ⟨hr, hs, hst⟩
  · refine ⟨Or.inl hr, ?_, le_of_eq hr.symm⟩
    intro hjs hps
    have hsp : s.stage = "PROMPTS" := hs.symm.trans hps
    rcases hjs with hj | hj <;> rw [hj] at hsp <;> exact absurd hsp (by decide)
  · refine ⟨Or.inl hr, ?_, le_of_eq hr.symm⟩
    intro hjs hps
    rcases hjs with hj | hj <;> rw [hj] at hst <;> exact absurd hst (by decide)
  · refine ⟨Or.inl hr, ?_, le_of_eq hr.symm⟩
    intro hjs hps
    rcases hjs with hj | hj <;> rw [hj] at hst <;> exact absurd hst (by decide)
  · refine ⟨Or.inl hr, ?_, le_of_eq hr.symm⟩
    intro hjs hps
    rcases hjs with hj | hj <;> rw [hj] at hst <;> exact absurd hst (by decide)
  · refine ⟨Or.inl hr, ?_, le_of_eq hr.symm⟩
    intro hjs hps
    have : ("GAME_OVER" : String) = "PROMPTS" := hs.symm.trans hps
    exact absurd this (by decide)
  · refine ⟨Or.inr ⟨hr, hs, hst⟩, fun _ _ => hr, ?_⟩
    rw [hr]
    exact Nat.le_succ _

/-- Witness for C4: starting the game from the reachable one-player JOINING
state increments the round from 0 to 1. -/
theorem claim_C4_witness :
    (step fixOnePlayer (Op.nextMsg "s1" [] [])).round
      = fixOnePlayer.round + 1 :=
  (claim_C4 fixOnePlayer (Op.nextMsg "s1" [] [])).2.1
    (Or.inl (by decide)) (by decide)

end Quiplash
